import Mathlib

/-!
Verification of the orchestration logic of a Slack emoji export tool
(`slack_emoji_exporter.py`).  The script has four operations: listing the
custom-emoji catalog of a source workspace (`list_emojis`), downloading the
image assets (`download_emoji` / `download_emojis`), and uploading them to a
destination workspace with a retry/backoff loop (`upload_emoji` /
`upload_emojis`).  Each Python function is shallowly embedded as a Lean
function; network responses, injected failures and upload results are passed
in explicitly, and observable side effects (sleeps, log lines, written file
contents) are returned as data.
-/

/-- Outcome of one HTTP POST to the emoji upload endpoint, as `upload_emoji`
observes it: HTTP-level success with the API `ok` flag true; HTTP-level
success with the `ok` flag false and the given API error string; a raw HTTP
429 status; or any other non-OK HTTP status. -/
inductive UploadResponse where
  | httpOkApiOk : UploadResponse
  | httpOkApiErr : String → UploadResponse
  | http429 : UploadResponse
  | httpErr : Nat → UploadResponse
  deriving DecidableEq

/-- Observable result of `upload_emoji`: the returned boolean, the list of
backoff sleeps performed (in seconds, in order), and the number of loop
iterations (attempts) executed. -/
structure UploadResult where
  success : Bool
  sleeps : List Nat
  attempts : Nat
  deriving DecidableEq

/-- Body of the `while attempts < max_retries` loop of `upload_emoji`.
`resp n` is the response received on attempt number `n` (attempts are
numbered from 1, matching the incremented `attempts` variable); the second
and third arguments are the current attempt number and the current `backoff`
value; the last argument is the number of loop iterations still permitted
(`max_retries - attempts` before the increment).  Mirrors the source: an
HTTP-OK / API-ok response returns `True`; an HTTP-OK response with API error
`"ratelimited"` sleeps `backoff`, doubles it and continues; any other API
error returns `False` at once; a raw 429 sleeps, doubles and continues; any
other bad status sleeps and retries only when `attempts < max_retries`,
otherwise returns `False` without sleeping; a loop that exhausts its
iterations falls through to `return False`. -/
def uploadGo (resp : Nat → UploadResponse) : Nat → Nat → Nat → UploadResult
  | _, _, 0 => ⟨false, [], 0⟩
  | attempt, backoff, r + 1 =>
    match resp attempt with
    | UploadResponse.httpOkApiOk => ⟨true, [], 1⟩
    | UploadResponse.httpOkApiErr e =>
      if e = ("ratelimited") then
        let rest := uploadGo resp (attempt + 1) (backoff * 2) r
        ⟨rest.success, backoff :: rest.sleeps, rest.attempts + 1⟩
      else ⟨false, [], 1⟩
    | UploadResponse.http429 =>
      let rest := uploadGo resp (attempt + 1) (backoff * 2) r
      ⟨rest.success, backoff :: rest.sleeps, rest.attempts + 1⟩
    | UploadResponse.httpErr _ =>
      if 0 < r then
        let rest := uploadGo resp (attempt + 1) (backoff * 2) r
        ⟨rest.success, backoff :: rest.sleeps, rest.attempts + 1⟩
      else ⟨false, [], 1⟩

/-- Retry cap of `upload_emoji` (`max_retries = 5`). -/
def max_retries : Nat := 5

/-- Model of `upload_emoji(team_id, cookie, token, name, file_path)`: runs
the retry loop starting at attempt 1 with `backoff = 1` and at most
`max_retries` iterations. -/
def upload_emoji (resp : Nat → UploadResponse) : UploadResult :=
  uploadGo resp 1 1 max_retries

/-- Predicate on responses that take one of the two rate-limit paths of the
loop: a raw HTTP 429, or an HTTP-OK response whose API error string is
exactly `"ratelimited"`. -/
def UploadResponse.isRateLimited : UploadResponse → Bool
  | UploadResponse.http429 => true
  | UploadResponse.httpOkApiErr e => e == ("ratelimited")
  | _ => false

/-- Sleeps performed by a run of the loop in which every attempt is
rate-limited: one sleep of the current backoff per remaining iteration, the
backoff doubling each time. -/
def rlSleeps : Nat → Nat → List Nat
  | _, 0 => []
  | b, r + 1 => b :: rlSleeps (b * 2) r

theorem uploadGo_rl_step (resp : Nat → UploadResponse) (a b r : Nat)
    (h : (resp a).isRateLimited = true) :
    uploadGo resp a b (r + 1)
      = ⟨(uploadGo resp (a + 1) (b * 2) r).success,
         b :: (uploadGo resp (a + 1) (b * 2) r).sleeps,
         (uploadGo resp (a + 1) (b * 2) r).attempts + 1⟩ := by
  cases hr : resp a with
  | httpOkApiOk =>
    rw [hr] at h
    simp [UploadResponse.isRateLimited] at h
  | httpOkApiErr e =>
    rw [hr] at h
    simp only [UploadResponse.isRateLimited, beq_iff_eq] at h
    simp [uploadGo, hr, h]
  | http429 =>
    simp [uploadGo, hr]
  | httpErr s =>
    rw [hr] at h
    simp [UploadResponse.isRateLimited] at h

theorem uploadGo_all_rl (resp : Nat → UploadResponse)
    (h : ∀ n, (resp n).isRateLimited = true) :
    ∀ (r a b : Nat), uploadGo resp a b r = ⟨false, rlSleeps b r, r⟩ := by
  intro r
  induction r with
  | zero => intro a b; rfl
  | succ r ih =>
    intro a b
    rw [uploadGo_rl_step resp a b r (h a), ih (a + 1) (b * 2)]
    rfl

theorem uploadGo_ok_step (resp : Nat → UploadResponse) (a b r : Nat)
    (h : resp a = UploadResponse.httpOkApiOk) :
    uploadGo resp a b (r + 1) = ⟨true, [], 1⟩ := by
  simp [uploadGo, h]

/-- C1, counterexample: under a persistent HTTP 429 the loop performs five
backoff sleeps of 1, 2, 4, 8 and 16 seconds (it also sleeps after the final
failed attempt), not the four sleeps of 1, 2, 4 and 8 stated by the claim;
the item is still reported failed. -/
theorem upload_rate_limit_exhaustion_cex :
    (upload_emoji (fun _ : Nat => UploadResponse.http429)).success = false
      ∧ (upload_emoji (fun _ : Nat => UploadResponse.http429)).sleeps ≠ [1, 2, 4, 8]
      ∧ (upload_emoji (fun _ : Nat => UploadResponse.http429)).sleeps = [1, 2, 4, 8, 16] := by
  decide

/-- C1 (amended): an upload that is rate-limited (HTTP 429 or API error code
`"ratelimited"`) on every one of its 5 attempts returns false, and exactly 5
backoff sleeps of 1, 2, 4, 8 and 16 seconds are performed before giving up
(the loop sleeps once per attempt, including the final one). -/
theorem upload_rate_limit_exhaustion (resp : Nat → UploadResponse)
    (h : ∀ n, (resp n).isRateLimited = true) :
    upload_emoji resp = ⟨false, [1, 2, 4, 8, 16], 5⟩ := by
  have hg := uploadGo_all_rl resp h 5 1 1
  have hs : rlSleeps 1 5 = [1, 2, 4, 8, 16] := rfl
  rw [hs] at hg
  exact hg

/-- Witness for C1 at the constant HTTP-429 response. -/
theorem upload_rate_limit_exhaustion_witness :
    (∀ n, ((fun _ : Nat => UploadResponse.http429) n).isRateLimited = true)
      ∧ upload_emoji (fun _ : Nat => UploadResponse.http429)
          = ⟨false, [1, 2, 4, 8, 16], 5⟩ :=
  ⟨fun _ => rfl,
   upload_rate_limit_exhaustion (fun _ : Nat => UploadResponse.http429) (fun _ => rfl)⟩

/-- C2: an upload that receives HTTP 429 on each of its first three attempts
and succeeds (HTTP-OK and API ok flag true) on the fourth attempt returns
true, with backoff sleeps of exactly 1, 2 and 4 seconds between the
attempts, using 4 attempts in total. -/
theorem upload_429_thrice_then_success (resp : Nat → UploadResponse)
    (h1 : resp 1 = UploadResponse.http429) (h2 : resp 2 = UploadResponse.http429)
    (h3 : resp 3 = UploadResponse.http429) (h4 : resp 4 = UploadResponse.httpOkApiOk) :
    upload_emoji resp = ⟨true, [1, 2, 4], 4⟩ := by
  have e4 : uploadGo resp 4 8 2 = ⟨true, [], 1⟩ := uploadGo_ok_step resp 4 8 1 h4
  have e3 : uploadGo resp 3 4 3 = ⟨true, [4], 2⟩ := by
    have h := uploadGo_rl_step resp 3 4 2 (by rw [h3]; rfl)
    exact h.trans (by rw [show (3 : Nat) + 1 = 4 from rfl, show (4 : Nat) * 2 = 8 from rfl, e4])
  have e2 : uploadGo resp 2 2 4 = ⟨true, [2, 4], 3⟩ := by
    have h := uploadGo_rl_step resp 2 2 3 (by rw [h2]; rfl)
    exact h.trans (by rw [show (2 : Nat) + 1 = 3 from rfl, show (2 : Nat) * 2 = 4 from rfl, e3])
  have e1 : uploadGo resp 1 1 5 = ⟨true, [1, 2, 4], 4⟩ := by
    have h := uploadGo_rl_step resp 1 1 4 (by rw [h1]; rfl)
    exact h.trans (by rw [show (1 : Nat) + 1 = 2 from rfl, show (1 : Nat) * 2 = 2 from rfl, e2])
  exact e1

/-- Witness for C2 at a response sequence with 429 on attempts 1 to 3 and
success from attempt 4 on. -/
theorem upload_429_thrice_then_success_witness :
    upload_emoji
        (fun n : Nat => if n < 4 then UploadResponse.http429 else UploadResponse.httpOkApiOk)
      = ⟨true, [1, 2, 4], 4⟩ :=
  upload_429_thrice_then_success
    (fun n : Nat => if n < 4 then UploadResponse.http429 else UploadResponse.httpOkApiOk)
    rfl rfl rfl rfl

/-- C3: an attempt whose HTTP response is OK but whose API-level ok flag is
false with an error code other than `"ratelimited"` makes the loop return
false immediately: no backoff sleep is performed and no further attempt is
made, regardless of how many attempts remain. -/
theorem upload_fatal_api_error_no_retry (resp : Nat → UploadResponse) (a b r : Nat)
    (e : String) (ha : resp a = UploadResponse.httpOkApiErr e)
    (he : e ≠ ("ratelimited")) :
    uploadGo resp a b (r + 1) = ⟨false, [], 1⟩ := by
  simp [uploadGo, ha, he]

/-- Witness for C3 at a constant `error_name_taken` API error with all 5
attempts remaining. -/
theorem upload_fatal_api_error_no_retry_witness :
    uploadGo (fun _ : Nat => UploadResponse.httpOkApiErr ("error_name_taken")) 1 1 5
      = ⟨false, [], 1⟩ :=
  upload_fatal_api_error_no_retry
    (fun _ : Nat => UploadResponse.httpOkApiErr ("error_name_taken")) 1 1 4
    ("error_name_taken") rfl (by decide)

/-- Decides whether the first character list is a prefix of the second.
Character-by-character comparison, used to model Python's `str.startswith`
so that all string computations of the embedding reduce by evaluation. -/
def charsPrefix : List Char → List Char → Bool
  | [], _ => true
  | _ :: _, [] => false
  | c :: cs, d :: ds => if c = d then charsPrefix cs ds else false

/-- Model of Python's `s.startswith(pre)`. -/
def strStartsWith (s pre : String) : Bool := charsPrefix pre.toList s.toList

/-- Response of the `emoji.list` directory endpoint as `list_emojis` observes
it: the HTTP-level `response.ok` flag, the numeric status code, the raw
response text, the JSON body's `ok` flag, its optional `error` string, and
its `emoji` name-to-URL mapping (in iteration order). -/
structure DirResponse where
  ok : Bool
  status : Nat
  text : String
  body_ok : Bool
  body_error : Option String
  emoji : List (String × String)

/-- Model of `list_emojis(token, output_file)`.  A non-OK HTTP response or a
false body `ok` flag prints a diagnostic and exits with code 1, modelled as
`Except.error` carrying the diagnostic; otherwise the alias entries (values
beginning with `"alias:"`) are dropped and the resulting catalog is both
written to the output file and returned, modelled as `Except.ok` carrying
the catalog. -/
def list_emojis (resp : DirResponse) : Except String (List (String × String)) :=
  if resp.ok = false then
    Except.error (("Error fetching emojis: ") ++ toString resp.status ++ (" ") ++ resp.text)
  else if resp.body_ok = false then
    Except.error (("Slack API Error: ") ++ (resp.body_error.getD ("Unknown error")))
  else
    Except.ok (resp.emoji.filter (fun p => !(strStartsWith p.2 ("alias:"))))

/-- C4: whenever `list_emojis` returns a catalog, that catalog holds exactly
the entries of the response's emoji mapping whose values do not begin with
`"alias:"`: no catalog entry's value begins with `"alias:"`, and every
non-alias entry is retained with its URL unchanged. -/
theorem list_emojis_alias_filter (resp : DirResponse)
    (cat : List (String × String)) (p : String × String)
    (h : list_emojis resp = Except.ok cat) :
    p ∈ cat ↔ p ∈ resp.emoji ∧ strStartsWith p.2 ("alias:") = false := by
  cases hok : resp.ok <;> cases hbo : resp.body_ok <;>
    simp [list_emojis, hok, hbo] at h
  rw [← h]
  simp [List.mem_filter]

/-- Witness for C4 at a response with one image entry and one alias entry. -/
theorem list_emojis_alias_filter_witness :
    (("smile"), ("https://x/e1.png"))
        ∈ [((("smile") : String), (("https://x/e1.png") : String))]
      ↔ (("smile"), ("https://x/e1.png"))
            ∈ [((("smile") : String), (("https://x/e1.png") : String)),
               (("party"), ("alias:smile"))]
          ∧ strStartsWith ("https://x/e1.png") ("alias:") = false :=
  list_emojis_alias_filter
    ⟨true, 200, (""), true, none,
     [(("smile"), ("https://x/e1.png")), (("party"), ("alias:smile"))]⟩
    [(("smile"), ("https://x/e1.png"))]
    ((("smile"), ("https://x/e1.png"))) (by rfl)

/-- C7: `list_emojis` fails if and only if the HTTP status is not OK or the
body's success flag is false; on such a failure it exits with a diagnostic
(the `Except.error` payload) and no catalog is produced or written. -/
theorem list_emojis_failure_iff (resp : DirResponse) :
    (∃ e, list_emojis resp = Except.error e)
      ↔ (resp.ok = false ∨ resp.body_ok = false) := by
  cases hok : resp.ok <;> cases hbo : resp.body_ok <;> simp [list_emojis, hok, hbo]

/-- Take the characters of the list strictly before the first occurrence of
`stop`. -/
def takeUntil (stop : Char) : List Char → List Char
  | [] => []
  | c :: cs => if c = stop then [] else c :: takeUntil stop cs

/-- Remainder of the character list after the first occurrence of the
three-character scheme marker `://`, if any. -/
def afterSchemeMarker : List Char → Option (List Char)
  | [] => none
  | c :: cs =>
    if c = ':' then
      match cs with
      | '/' :: '/' :: rest => some rest
      | _ => afterSchemeMarker cs
    else afterSchemeMarker cs

/-- Characters from the first `/` onward (inclusive); `[]` when there is
none. -/
def fromFirstSlash : List Char → List Char
  | [] => []
  | c :: cs => if c = '/' then c :: cs else fromFirstSlash cs

/-- Model of `urllib.parse.urlparse(url).path` for the URL shapes this
program handles: the fragment (after `#`) and query (after `?`) are
stripped; when the URL has a `://` scheme marker the network-location part
up to the next `/` is skipped and the path starts at that `/`; otherwise
the whole remaining string is the path. -/
def urlparse_path (url : String) : String :=
  let cs := takeUntil ('?') (takeUntil ('#') url.toList)
  match afterSchemeMarker cs with
  | some rest => String.mk (fromFirstSlash rest)
  | none => String.mk cs

/-- Extension search of `os.path.splitext` within a file name: the suffix
starting at the last dot, provided some character of the name strictly
before that dot is not itself a dot (so leading dots never start an
extension).  The boolean flag records whether a non-dot character has been
seen so far. -/
def extSearch : Bool → List Char → Option (List Char)
  | _, [] => none
  | seen, c :: cs =>
    if c = ('.') then
      match extSearch seen cs with
      | some e => some e
      | none => if seen then some (('.') :: cs) else none
    else extSearch true cs

/-- Model of `os.path.splitext(p)[1]`: the extension of the component of
`p` after its last `/`, or `""` when there is none. -/
def splitext_ext (p : String) : String :=
  let base := (takeUntil ('/') p.toList.reverse).reverse
  match extSearch false base with
  | some e => String.mk e
  | none => ("")

/-- Result of the network-and-write phase of one `download_emoji` call: the
HTTP GET was OK and the file write completed; the GET returned a non-OK
status; or an exception (network or write error) was raised with the given
message. -/
inductive FetchOutcome where
  | success : FetchOutcome
  | httpError : Nat → FetchOutcome
  | raised : String → FetchOutcome
  deriving DecidableEq

/-- True exactly on the successful fetch outcome. -/
def FetchOutcome.isSuccess : FetchOutcome → Bool
  | FetchOutcome.success => true
  | _ => false

/-- Model of `download_emoji(name, url, output_dir)`.  An alias URL returns
`None` at once.  Otherwise the extension is the suffix of the URL's parsed
path, defaulting to `".png"` when empty, and the target file is
`output_dir/<name><extension>`; on success the pair `(name, output_file)`
is returned, while a non-OK GET or a raised exception is logged with the
emoji name and the status or error, returning `None`.  The first component
is the returned value, the second the log lines printed. -/
def download_emoji (name url : String) (outcome : FetchOutcome) (output_dir : String) :
    Option (String × String) × List String :=
  if strStartsWith url ("alias:") then (none, [])
  else
    let extension0 := splitext_ext (urlparse_path url)
    let extension := if extension0 = ("") then (".png") else extension0
    let output_file := output_dir ++ ("/") ++ name ++ extension
    match outcome with
    | FetchOutcome.success => (some (name, output_file), [])
    | FetchOutcome.httpError s =>
      (none, [("Error downloading ") ++ name ++ (": ") ++ toString s])
    | FetchOutcome.raised e =>
      (none, [("Error downloading ") ++ name ++ (": ") ++ e])


/-- Body of the result-joining loop of `download_emojis`: a future whose
result is `Some` pair has that pair appended to the `downloaded`
accumulator; a `None` result is skipped. -/
def collectStep {α β : Type} (acc : List α) (fr : Option α × List β) : List α :=
  match fr.1 with
  | some r => acc ++ [r]
  | none => acc

/-- Model of `download_emojis(emoji_list, output_dir)` on an already-loaded
catalog: one future is submitted per catalog entry in iteration order (the
injected `outcomes` function fixes each entry's fetch outcome), the futures
are joined in submission order, and each successful result is appended in
that order; per-future log lines are collected likewise.  Returns the
`downloaded` list and the log lines. -/
def download_emojis (emoji_list : List (String × String))
    (outcomes : String × String → FetchOutcome) (output_dir : String) :
    List (String × String) × List String :=
  let futures := emoji_list.map (fun p => download_emoji p.1 p.2 (outcomes p) output_dir)
  (futures.foldl collectStep [], futures.foldl (fun acc fr => acc ++ fr.2) [])

theorem foldl_collect_eq {α β : Type} (l : List (Option α × List β)) :
    ∀ acc : List α, l.foldl collectStep acc = acc ++ l.filterMap Prod.fst := by
  induction l with
  | nil => intro acc; simp
  | cons hd tl ih =>
    intro acc
    cases hfst : hd.1 with
    | none => simp [collectStep, hfst, ih, List.filterMap_cons]
    | some r => simp [collectStep, hfst, ih, List.filterMap_cons]

theorem foldl_logs_eq {α β : Type} (l : List (Option α × List β)) :
    ∀ acc : List β,
      l.foldl (fun acc fr => acc ++ fr.2) acc = acc ++ (l.map Prod.snd).flatten := by
  induction l with
  | nil => intro acc; simp
  | cons hd tl ih => intro acc; simp [ih]

theorem length_filterMap_fst {α β : Type} :
    ∀ fs : List (Option α × List β),
      (fs.filterMap Prod.fst).length
        = fs.length - fs.countP (fun fr => fr.1.isNone) := by
  intro fs
  induction fs with
  | nil => rfl
  | cons hd tl ih =>
    have hle : tl.countP (fun fr => fr.1.isNone) ≤ tl.length := List.countP_le_length _
    cases hfst : hd.1 with
    | none =>
      simp [List.filterMap_cons, hfst, List.countP_cons, ih]
    | some r =>
      simp [List.filterMap_cons, hfst, List.countP_cons, ih]
      omega

theorem length_flatten_logs {α β : Type} :
    ∀ fs : List (Option α × List β),
      (∀ fr ∈ fs, fr.2.length = (if fr.1.isNone then 1 else 0)) →
      ((fs.map Prod.snd).flatten).length = fs.countP (fun fr => fr.1.isNone) := by
  intro fs
  induction fs with
  | nil => intro _; rfl
  | cons hd tl ih =>
    intro h
    have hhd := h hd (List.mem_cons_self hd tl)
    have htl := ih (fun fr hfr => h fr (List.mem_cons_of_mem hd hfr))
    simp only [List.map_cons, List.flatten_cons, List.length_append, List.countP_cons, htl, hhd]
    omega

theorem download_emoji_success_shape (name url output_dir : String)
    (h : strStartsWith url ("alias:") = false) :
    (∃ r, (download_emoji name url FetchOutcome.success output_dir).1 = some r)
      ∧ (download_emoji name url FetchOutcome.success output_dir).2 = [] := by
  simp [download_emoji, h]

theorem download_emoji_failure_shape (name url output_dir : String) (oc : FetchOutcome)
    (h : strStartsWith url ("alias:") = false) (hoc : oc.isSuccess = false) :
    (download_emoji name url oc output_dir).1 = none
      ∧ (download_emoji name url oc output_dir).2.length = 1 := by
  cases oc with
  | success => simp [FetchOutcome.isSuccess] at hoc
  | httpError s => simp [download_emoji, h]
  | raised e => simp [download_emoji, h]

theorem download_emoji_isNone_iff (outcomes : String × String → FetchOutcome)
    (output_dir : String) (q : String × String)
    (hq : strStartsWith q.2 ("alias:") = false) :
    ((download_emoji q.1 q.2 (outcomes q) output_dir).1.isNone)
      = (!(outcomes q).isSuccess) := by
  cases hoc : outcomes q with
  | success =>
    obtain ⟨⟨r, hr⟩, _⟩ := download_emoji_success_shape q.1 q.2 output_dir hq
    simp [hr, FetchOutcome.isSuccess]
  | httpError s =>
    obtain ⟨hr, _⟩ := download_emoji_failure_shape q.1 q.2 output_dir
      (FetchOutcome.httpError s) hq (by rfl)
    simp [hr, FetchOutcome.isSuccess]
  | raised e =>
    obtain ⟨hr, _⟩ := download_emoji_failure_shape q.1 q.2 output_dir
      (FetchOutcome.raised e) hq (by rfl)
    simp [hr, FetchOutcome.isSuccess]

theorem download_emoji_log_length (outcomes : String × String → FetchOutcome)
    (output_dir : String) (q : String × String)
    (hq : strStartsWith q.2 ("alias:") = false) :
    (download_emoji q.1 q.2 (outcomes q) output_dir).2.length
      = (if (download_emoji q.1 q.2 (outcomes q) output_dir).1.isNone
         then 1 else 0) := by
  cases hoc : outcomes q with
  | success =>
    obtain ⟨⟨r, hr⟩, hlog⟩ := download_emoji_success_shape q.1 q.2 output_dir hq
    simp [hr, hlog]
  | httpError s =>
    obtain ⟨hr, hlog⟩ := download_emoji_failure_shape q.1 q.2 output_dir
      (FetchOutcome.httpError s) hq (by rfl)
    simp [hr, hlog]
  | raised e =>
    obtain ⟨hr, hlog⟩ := download_emoji_failure_shape q.1 q.2 output_dir
      (FetchOutcome.raised e) hq (by rfl)
    simp [hr, hlog]

/-- C5: on a catalog with no alias entries, `download_emojis` returns exactly
`N - K` successful `(name, file)` pairs and logs exactly `K` failure lines,
where `N` is the catalog size and `K` the number of entries whose fetch
fails (non-OK status or raised network/write error); every failure is
excluded from the result and the batch is never aborted. -/
theorem download_emojis_success_counts (emoji_list : List (String × String))
    (outcomes : String × String → FetchOutcome) (output_dir : String)
    (h : ∀ p ∈ emoji_list, strStartsWith p.2 ("alias:") = false) :
    (download_emojis emoji_list outcomes output_dir).1.length
        = emoji_list.length - emoji_list.countP (fun p => !(outcomes p).isSuccess)
      ∧ (download_emojis emoji_list outcomes output_dir).2.length
        = emoji_list.countP (fun p => !(outcomes p).isSuccess) := by
  constructor
  · rw [show (download_emojis emoji_list outcomes output_dir).1
        = (emoji_list.map
            (fun p => download_emoji p.1 p.2 (outcomes p) output_dir)).foldl
              collectStep [] from rfl]
    rw [foldl_collect_eq, List.nil_append, length_filterMap_fst, List.length_map,
      List.countP_map]
    congr 1
    refine List.countP_congr ?_
    intro q hq
    have hpt := download_emoji_isNone_iff outcomes output_dir q (h q hq)
    simp [Function.comp, hpt]
  · rw [show (download_emojis emoji_list outcomes output_dir).2
        = (emoji_list.map
            (fun p => download_emoji p.1 p.2 (outcomes p) output_dir)).foldl
              (fun acc fr => acc ++ fr.2) [] from rfl]
    rw [foldl_logs_eq, List.nil_append]
    rw [length_flatten_logs _ ?hlog]
    case hlog =>
      intro fr hfr
      obtain ⟨q, hq, rfl⟩ := List.mem_map.1 hfr
      exact download_emoji_log_length outcomes output_dir q (h q hq)
    rw [List.countP_map]
    refine List.countP_congr ?_
    intro q hq
    have hpt := download_emoji_isNone_iff outcomes output_dir q (h q hq)
    simp [Function.comp, hpt]

/-- Witness for C5: a three-entry catalog whose middle entry fails with an
HTTP 500 yields two successes and one failure log line. -/
theorem download_emojis_success_counts_witness :
    (download_emojis
        [((("smile") : String), (("https://x/a.png") : String)),
         (("frown"), ("https://x/b.png")), (("wave"), ("https://x/c.gif"))]
        (fun p => if p.1 = ("frown") then FetchOutcome.httpError 500
                  else FetchOutcome.success)
        ("emoji_downloads")).1.length = 2
      ∧ (download_emojis
          [((("smile") : String), (("https://x/a.png") : String)),
           (("frown"), ("https://x/b.png")), (("wave"), ("https://x/c.gif"))]
          (fun p => if p.1 = ("frown") then FetchOutcome.httpError 500
                    else FetchOutcome.success)
          ("emoji_downloads")).2.length = 1 := by
  have h := download_emojis_success_counts
    [((("smile") : String), (("https://x/a.png") : String)),
     (("frown"), ("https://x/b.png")), (("wave"), ("https://x/c.gif"))]
    (fun p => if p.1 = ("frown") then FetchOutcome.httpError 500
              else FetchOutcome.success)
    ("emoji_downloads") (by decide)
  refine ⟨?_, ?_⟩
  · rw [h.1]; decide
  · rw [h.2]; decide

/-- C6: a successful `download_emoji` stores the file at
`output_dir/<name><ext>` where `<ext>` is the suffix of the URL's parsed
path component, or `".png"` when that path has no suffix. -/
theorem download_emoji_target_path (name url output_dir : String)
    (h : strStartsWith url ("alias:") = false) :
    (download_emoji name url FetchOutcome.success output_dir).1
      = some (name, output_dir ++ ("/") ++ name
          ++ (if splitext_ext (urlparse_path url) = ("") then (".png")
              else splitext_ext (urlparse_path url))) := by
  simp [download_emoji, h]

/-- Witness for C6 at a URL whose path ends in `/image` and so has no
suffix: the file is written with extension `.png`. -/
theorem download_emoji_target_path_witness :
    strStartsWith ("https://emoji.example.com/T02/smile/image") ("alias:") = false
      ∧ (download_emoji ("smile") ("https://emoji.example.com/T02/smile/image")
            FetchOutcome.success ("emoji_downloads")).1
          = some ((("smile") : String), (("emoji_downloads/smile.png") : String)) := by
  refine ⟨by decide, ?_⟩
  have h := download_emoji_target_path ("smile")
    ("https://emoji.example.com/T02/smile/image") ("emoji_downloads") (by decide)
  rw [h]
  decide

/-- C9: the list returned by `download_emojis` is the per-entry download
results taken in catalog submission order with the failed entries dropped:
one future per entry in iteration order, joined in that same order, so the
result order never reflects completion order. -/
theorem download_emojis_submission_order (emoji_list : List (String × String))
    (outcomes : String × String → FetchOutcome) (output_dir : String) :
    (download_emojis emoji_list outcomes output_dir).1
      = (emoji_list.map
          (fun p => (download_emoji p.1 p.2 (outcomes p) output_dir).1)).filterMap id := by
  rw [show (download_emojis emoji_list outcomes output_dir).1
      = (emoji_list.map
          (fun p => download_emoji p.1 p.2 (outcomes p) output_dir)).foldl
            collectStep [] from rfl]
  rw [foldl_collect_eq, List.nil_append, List.filterMap_map, List.filterMap_map]
  rfl

/-- JSON values as the `json` module represents them after parsing. -/
inductive Json where
  | null : Json
  | bool : Bool → Json
  | num : Int → Json
  | str : String → Json
  | arr : List Json → Json
  | obj : List (String × Json) → Json

/-- Serialization step of the catalog persist in `list_emojis`
(`json.dump(custom_emojis, f, indent=2)`): the catalog becomes a JSON
object holding the entries in order, each value a JSON string. -/
def dumpCatalog (catalog : List (String × String)) : Json :=
  Json.obj (catalog.map (fun p => (p.1, Json.str p.2)))

/-- Field-wise reading of a parsed JSON object back into a name-to-URL
mapping; every field value must be a JSON string. -/
def loadFields : List (String × Json) → Option (List (String × String))
  | [] => some []
  | p :: rest =>
    match p.2, loadFields rest with
    | Json.str u, some tail => some ((p.1, u) :: tail)
    | _, _ => none

/-- Loading step of `download_emojis` (`json.load(f)`) on the artifact
file: succeeds on a JSON object whose values are all strings, which is what
`list_emojis` writes. -/
def loadCatalog : Json → Option (List (String × String))
  | Json.obj fields => loadFields fields
  | _ => none

/-- C8: writing a catalog to the artifact file as JSON and reloading that
file yields a mapping identical to the original (round trip between the
persist step of `list_emojis` and the load step of `download_emojis`). -/
theorem catalog_round_trip (catalog : List (String × String)) :
    loadCatalog (dumpCatalog catalog) = some catalog := by
  induction catalog with
  | nil => rfl
  | cons p tl ih =>
    have ih2 : loadFields (tl.map (fun q => (q.1, Json.str q.2))) = some tl := ih
    show loadFields ((p.1, Json.str p.2) :: tl.map (fun q => (q.1, Json.str q.2)))
      = some (p :: tl)
    simp [loadFields, ih2]

/-- Decides whether the second character list ends with the first. -/
def charsSuffix (suf cs : List Char) : Bool :=
  charsPrefix suf.reverse cs.reverse

/-- Model of a `pathlib.Path.glob` match against the pattern `*.<ext>`: the
star matches any run of characters, including the empty run and runs with
leading dots (`Path.glob` matches hidden files), so a name matches exactly
when it ends with `.<ext>`; the extension comparison is exact, hence
case-sensitive. -/
def globMatch (ext : String) (filename : String) : Bool :=
  charsSuffix ((("." ) ++ ext).toList) filename.toList

/-- Extension patterns scanned by `upload_emojis`, in scan order. -/
def emoji_patterns : List String := [("png"), ("jpg"), ("jpeg"), ("gif")]

/-- File-scan step of `upload_emojis`: for each pattern in order, the files
of the (non-recursive) directory listing matching that pattern are
appended. -/
def emojiFilesOf (dirFiles : List String) : List String :=
  emoji_patterns.foldl (fun acc ext => acc ++ dirFiles.filter (globMatch ext)) []

/-- Model of `Path.stem` for the scanned files: the file name with its
extension removed. -/
def stemOf (filename : String) : String :=
  String.mk (filename.toList.take
    (filename.toList.length - (splitext_ext filename).toList.length))

/-- Model of `upload_emojis(team_id, cookie, token, emoji_dir)`: scans the
directory listing for the four image patterns, then sequentially uploads
each matched file under its stem as the emoji name (`uploadResult` fixes the
boolean `upload_emoji` outcome per stem and file), counting uploaded and
failed items.  Returns the pair (uploaded, failed). -/
def upload_emojis (dirFiles : List String) (uploadResult : String → String → Bool) :
    Nat × Nat :=
  (emojiFilesOf dirFiles).foldl
    (fun counts f =>
      if uploadResult (stemOf f) f then (counts.1 + 1, counts.2)
      else (counts.1, counts.2 + 1))
    (0, 0)

/-- C10: the directory scan of `upload_emojis` matches only the exact
lowercase extension patterns `*.png`, `*.jpg`, `*.jpeg`, `*.gif`, so a file
whose extension differs in case, such as `smile.PNG`, is never an upload
candidate and leaves both the uploaded and the failed count unchanged. -/
theorem upload_emojis_case_sensitive_scan (dirFiles : List String)
    (uploadResult : String → String → Bool) :
    emojiFilesOf ((("smile.PNG") : String) :: dirFiles) = emojiFilesOf dirFiles
      ∧ upload_emojis ((("smile.PNG") : String) :: dirFiles) uploadResult
          = upload_emojis dirFiles uploadResult := by
  have h1 : globMatch ("png") ("smile.PNG") = false := by decide
  have h2 : globMatch ("jpg") ("smile.PNG") = false := by decide
  have h3 : globMatch ("jpeg") ("smile.PNG") = false := by decide
  have h4 : globMatch ("gif") ("smile.PNG") = false := by decide
  have hfiles : emojiFilesOf ((("smile.PNG") : String) :: dirFiles) = emojiFilesOf dirFiles := by
    simp [emojiFilesOf, emoji_patterns, List.filter_cons, h1, h2, h3, h4]
  refine ⟨hfiles, ?_⟩
  unfold upload_emojis
  rw [hfiles]
